import Mathlib

/-!
Shallow embedding of the `google_adk_agent_manager` repository:
the two agent tools (`src/adk_short_bot/tools/json_formattter.py` and the
`count_characters` tool imported by `src/adk_short_bot/agent.py`), and the
deployment manager `src/deployment/remote.py` (`AgentManager`).
Pure Python helpers become Lean functions; methods that print and call the
remote SDK become functions from their inputs and the modelled remote
outcome to the list of observable events (stdout lines, stderr lines,
remote calls, process exit).
-/

namespace AdkAgentManager

/-- JSON values as passed to `json.dumps`: Python `None`, `bool`, `int`,
`str`, `list`, `dict` (a `dict` keeps insertion order, so it is a list of
key-value pairs). -/
inductive JVal where
  | null : JVal
  | bool (b : Bool) : JVal
  | int (n : Int) : JVal
  | str (s : String) : JVal
  | arr (xs : List JVal) : JVal
  | obj (kvs : List (String × JVal)) : JVal
deriving Repr

/-- Lower-case hexadecimal digit, as Python's `\uXXXX` escapes use. -/
def hexDigit (n : Nat) : Char :=
  if n < 10 then Char.ofNat (48 + n) else Char.ofNat (87 + n)

/-- Four-digit hexadecimal rendering of a code unit for a `\uXXXX` escape. -/
def hex4 (n : Nat) : String :=
  String.mk [hexDigit (n / 4096 % 16), hexDigit (n / 256 % 16),
             hexDigit (n / 16 % 16), hexDigit (n % 16)]

/-- Escape of one character in a JSON string literal, following
`json.dumps` with its default `ensure_ascii=True`: the two-character
escapes for quote, backslash and common control characters, `\uXXXX` for
other control and all non-ASCII characters (a surrogate pair beyond the
basic plane). -/
def escapeChar (c : Char) : String :=
  if c = '"' then "\\\""
  else if c = '\\' then "\\\\"
  else if c = '\n' then "\\n"
  else if c = '\t' then "\\t"
  else if c = '\r' then "\\r"
  else if c = Char.ofNat 8 then "\\b"
  else if c = Char.ofNat 12 then "\\f"
  else if c.toNat < 32 ∨ 126 < c.toNat then
    if c.toNat < 65536 then "\\u" ++ hex4 c.toNat
    else
      "\\u" ++ hex4 (55296 + (c.toNat - 65536) / 1024) ++
      "\\u" ++ hex4 (56320 + (c.toNat - 65536) % 1024)
  else String.singleton c

/-- A JSON string literal: quotes around the escaped characters. -/
def quoteStr (s : String) : String :=
  "\"" ++ String.join (s.data.map escapeChar) ++ "\""

/-- `n` spaces of indentation. -/
def pad (n : Nat) : String :=
  String.mk (List.replicate n ' ')

mutual

/-- `json.dumps(v, indent=step)` at current indentation `ind`: atoms are
rendered inline, a non-empty container opens on its own line and indents
its elements by `step` more spaces; with an `indent` argument Python uses
`", "`-free separators `,` + newline and `": "` between key and value; an
empty container renders as `[]` / `{}`. -/
def dumps (step ind : Nat) : JVal → String
  | .null => "null"
  | .bool b => if b then "true" else "false"
  | .int n => toString n
  | .str s => quoteStr s
  | .arr [] => "[]"
  | .arr (x :: xs) =>
      "[\n" ++ dumpsArr step (ind + step) (x :: xs) ++ "\n" ++ pad ind ++ "]"
  | .obj [] => "\x7b\x7d"
  | .obj (kv :: kvs) =>
      "\x7b\n" ++ dumpsObj step (ind + step) (kv :: kvs) ++ "\n" ++ pad ind ++ "\x7d"

/-- The comma-and-newline separated elements of a non-empty JSON array. -/
def dumpsArr (step ind : Nat) : List JVal → String
  | [] => ""
  | [x] => pad ind ++ dumps step ind x
  | x :: y :: xs =>
      pad ind ++ dumps step ind x ++ ",\n" ++ dumpsArr step ind (y :: xs)

/-- The comma-and-newline separated entries of a non-empty JSON object. -/
def dumpsObj (step ind : Nat) : List (String × JVal) → String
  | [] => ""
  | [kv] => pad ind ++ quoteStr kv.1 ++ ": " ++ dumps step ind kv.2
  | kv :: kv2 :: kvs =>
      pad ind ++ quoteStr kv.1 ++ ": " ++ dumps step ind kv.2 ++ ",\n" ++
      dumpsObj step ind (kv2 :: kvs)

end

/-- `format_as_json(**kwargs)` from
`src/adk_short_bot/tools/json_formattter.py`: `json.dumps(kwargs, indent=4)`
on the keyword-argument mapping, which keeps the caller's argument order. -/
def format_as_json (kwargs : List (String × JVal)) : String :=
  dumps 4 0 (.obj kwargs)

/-- Modelled from the spec: the `count_characters` tool, imported by
`src/adk_short_bot/agent.py` from `adk_short_bot.tools` but whose source
file is not under `src/`. Per the spec it returns the length of the given
text string as a non-negative integer, with no side effects (Python
`len` on `str` counts Unicode code points, as `String.length` does). -/
def count_characters (s : String) : Nat :=
  s.length

/-! ### The deployment manager, `src/deployment/remote.py` -/

/-- One observable step of an `AgentManager` method: a line printed to
stdout (`print(...)`), a line printed to stderr (`print(..., file=sys.stderr)`),
or a call into the remote platform (`vertexai.init`, `agent_engines.create`,
`agent_engines.delete`). -/
inductive Event where
  | out (s : String) : Event
  | err (s : String) : Event
  | vertexInit (project location bucket : String) : Event
  | remoteCreate (displayName description : String)
      (requirements extraPackages : List String) : Event
  | remoteDelete (resourceName : String) (force : Bool) : Event
deriving Repr, DecidableEq

/-- Whether an event is a call to the remote platform (a network
operation), as opposed to a local print. -/
def Event.isRemote : Event → Bool
  | .out _ => false
  | .err _ => false
  | .vertexInit _ _ _ => true
  | .remoteCreate _ _ _ _ => true
  | .remoteDelete _ _ => true

/-- `os.getenv(key)`: `none` models an unset variable. An environment is a
partial map from variable name to value. -/
def Env := String → Option String

/-- Python truthiness of `os.getenv`'s result: falsy when the variable is
unset or set to the empty string. -/
def envFalsy (v : Option String) : Bool :=
  match v with
  | none => true
  | some s => s = ""

/-- `s.split(sep)` for a one-character separator, as Python defines it:
cut at every occurrence of the separator; `n` separators yield `n + 1`
pieces, and the empty string yields `[""]`. `acc` holds the characters of
the current piece in reverse. -/
def pySplitAux (sep : Char) : List Char → List Char → List String
  | [], acc => [String.mk acc.reverse]
  | c :: rest, acc =>
      if c = sep then String.mk acc.reverse :: pySplitAux sep rest []
      else pySplitAux sep rest (c :: acc)

/-- Python `s.split(sep)` for a one-character separator. -/
def pySplit (sep : Char) (s : String) : List String :=
  pySplitAux sep s.data []

/-- Python `s.strip()`: remove leading and trailing whitespace. -/
def pyStrip (s : String) : String :=
  String.mk
    (((s.data.dropWhile Char.isWhitespace).reverse.dropWhile
        Char.isWhitespace).reverse)

/-- The requirements parser in `AgentManager.__init__`
(`src/deployment/remote.py` line 29): split the string on every comma and
strip surrounding whitespace from each piece
(`[req.strip() for req in agent_requirements_str.split(',')]`). -/
def parseRequirements (s : String) : List String :=
  (pySplit ',' s).map pyStrip

/-- The default for `AGENT_REQUIREMENTS`
(`src/deployment/remote.py` line 28). -/
def defaultRequirementsStr : String :=
  "google-cloud-aiplatform[adk,agent_engines]"

/-- The configuration an `AgentManager` instance carries after
`__init__` succeeds. -/
structure Config where
  project_id : String
  location : String
  bucket : String
  agent_package_name : String
  agent_display_name : String
  agent_description : String
  agent_requirements : List String
deriving Repr, DecidableEq

/-- The `required_vars` dict of `__init__`, in source order, with the
value each name was bound to. -/
def requiredVars (env : Env) : List (String × Option String) :=
  [("GOOGLE_CLOUD_PROJECT", env "GOOGLE_CLOUD_PROJECT"),
   ("GOOGLE_CLOUD_LOCATION", env "GOOGLE_CLOUD_LOCATION"),
   ("GOOGLE_CLOUD_STAGING_BUCKET", env "GOOGLE_CLOUD_STAGING_BUCKET"),
   ("AGENT_PACKAGE_NAME", env "AGENT_PACKAGE_NAME"),
   ("AGENT_DISPLAY_NAME", env "AGENT_DISPLAY_NAME")]

/-- `missing_vars`: names of required variables whose value is falsy. -/
def missingVars (env : Env) : List String :=
  ((requiredVars env).filter (fun kv => envFalsy kv.2)).map Prod.fst

/-- Result of `AgentManager.__init__`: either `sys.exit(1)` after the
recorded events, or a configured manager. `vertexInitFails` models
`vertexai.init` raising (the `except` branch at line 49). -/
inductive InitResult where
  | exited (code : Nat) (events : List Event) : InitResult
  | ready (cfg : Config) (events : List Event) : InitResult
deriving Repr, DecidableEq

/-- `AgentManager.__init__` (`src/deployment/remote.py` lines 17-51): read
the environment, build the requirements list, exit with status 1 on any
missing required variable, then call `vertexai.init` and exit with
status 1 if it raises. -/
def managerInit (env : Env) (vertexInitFails : Bool) : InitResult :=
  let project_id := (env "GOOGLE_CLOUD_PROJECT").getD ""
  let location := (env "GOOGLE_CLOUD_LOCATION").getD ""
  let bucket := (env "GOOGLE_CLOUD_STAGING_BUCKET").getD ""
  let agent_package_name := (env "AGENT_PACKAGE_NAME").getD ""
  let agent_display_name := (env "AGENT_DISPLAY_NAME").getD ""
  let agent_description := (env "AGENT_DESCRIPTION").getD ""
  let agent_requirements :=
    parseRequirements ((env "AGENT_REQUIREMENTS").getD defaultRequirementsStr)
  let missing := missingVars env
  if missing ≠ [] then
    .exited 1
      [.err ("Error: Missing required environment variables: " ++
        String.intercalate ", " missing)]
  else if vertexInitFails then
    .exited 1
      [.out "Initializing Vertex AI...",
       .err "Error initializing Vertex AI: <exception>"]
  else
    .ready
      { project_id, location, bucket, agent_package_name,
        agent_display_name, agent_description, agent_requirements }
      [.out "Initializing Vertex AI...",
       .vertexInit project_id location bucket,
       .out ("   Project: " ++ project_id),
       .out ("   Location: " ++ location),
       .out ("   Staging Bucket: " ++ bucket ++ "\n")]

/-- Whether `needle` occurs as a contiguous substring of the character
list `hay` (Python's `needle in hay` on strings). -/
def containsSub (needle : List Char) : List Char → Bool
  | [] => needle.isEmpty
  | c :: t => needle.isPrefixOf (c :: t) || containsSub needle t

/-- `AgentManager._get_full_resource_name`
(`src/deployment/remote.py` lines 53-58): return the input unchanged when
it already contains `"projects/"`, otherwise build the fully qualified
resource name from the configured project and location. -/
def getFullResourceName (project_id location engine_id : String) : String :=
  if containsSub "projects/".data engine_id.data then engine_id
  else
    "projects/" ++ project_id ++ "/locations/" ++ location ++
      "/reasoningEngines/" ++ engine_id

/-- The outcome of the `agent_engines.delete` call, as classified by the
`except` clauses of `AgentManager.delete`: success, `FailedPrecondition`,
`NotFound`, another `GoogleAPICallError` (with its status code and
message), or any other exception. -/
inductive DeleteOutcome where
  | ok : DeleteOutcome
  | failedPrecondition : DeleteOutcome
  | notFound : DeleteOutcome
  | apiError (code msg : String) : DeleteOutcome
  | unexpected (msg : String) : DeleteOutcome
deriving Repr, DecidableEq

/-- The corrected command line `AgentManager.delete` suggests on a
`FailedPrecondition`: `sys.argv` with every argument starting with
`--force` removed, joined with spaces, with ` --force=True` appended. -/
def suggestedForceCommand (argv : List String) : String :=
  String.intercalate " "
      (argv.filter (fun a => !("--force".data.isPrefixOf a.data))) ++
    " --force=True"

/-- `AgentManager.delete` (`src/deployment/remote.py` lines 94-131):
a falsy (empty) `engine_id` prints an error and returns with no remote
call; otherwise the ID is resolved to a full resource name,
`agent_engines.delete` is called, and each failure class is translated to
stderr messages — `FailedPrecondition` additionally prints the corrected
command line suggesting the `--force` flag. -/
def delete (cfg : Config) (argv : List String) (engine_id : String)
    (force : Bool) (outcome : DeleteOutcome) : List Event :=
  if engine_id = "" then
    [.err "Error: engine_id is required."]
  else
    let full := getFullResourceName cfg.project_id cfg.location engine_id
    [.out ("Deleting agent: " ++ full ++ "...")] ++
    (if force then
        [.out "   --force flag set. Deleting agent and all child resources."]
      else []) ++
    [.remoteDelete full force] ++
    match outcome with
    | .ok => [.out "\nAgent deleted successfully."]
    | .failedPrecondition =>
        [.err ("\nError: Agent '" ++ engine_id ++
           "' cannot be deleted because it has existing sessions or other child resources."),
         .err "To proceed, you must delete the agent and all its resources by using the --force flag.",
         .err "\nExample command:",
         .err ("   " ++ suggestedForceCommand argv)]
    | .notFound =>
        [.err ("\nError: Agent with ID '" ++ engine_id ++ "' not found.")]
    | .apiError code msg =>
        [.err ("\nError deleting agent: API call failed with status " ++ code),
         .err ("Details: " ++ msg)]
    | .unexpected msg =>
        [.err ("\nAn unexpected error occurred during deletion: " ++ msg)]

/-- The outcome of the `agent_engines.create` call, as classified by the
`except` clauses of `AgentManager.create`: success (carrying the new
engine's `resource_name`), a `GoogleAPICallError`, or another exception. -/
inductive CreateOutcome where
  | ok (resourceName : String) : CreateOutcome
  | apiError (code msg : String) : CreateOutcome
  | unexpected (msg : String) : CreateOutcome
deriving Repr, DecidableEq

/-- `resource_name.split('/')[-1]`: the trailing segment after the last
slash (`pySplit` never returns an empty list, so the default is inert). -/
def lastSegment (s : String) : String :=
  (pySplit '/' s).getLastD ""

/-- The string-valued module-level bindings of `src/deployment/remote.py`.
The module's top level binds only the imported modules (`os`, `sys`,
`json`, `traceback`, `fire`, `vertexai`, `load_dotenv`, `api_exceptions`,
`agent_engines`, `reasoning_engines`) and the `AgentManager` class; no
module-level string constant such as `AGENT_DISPLAY_NAME` is ever
assigned, so every such lookup is `none` (a Python `NameError`). -/
def remoteModuleStrBindings : String → Option String :=
  fun _ => none

/-- `AgentManager.create` (`src/deployment/remote.py` lines 60-92) over an
arbitrary module scope `globals?`. After packaging, the
`agent_engines.create(...)` call evaluates its keyword arguments left to
right in module scope: `AGENT_DISPLAY_NAME`, `AGENT_DESCRIPTION`,
`AGENT_REQUIREMENTS`, `AGENT_PACKAGE_NAME`. An unbound name raises
`NameError`, which the trailing `except Exception` clause turns into the
"unexpected error" stderr message; if all resolve, the submission is made
and the outcome's branches report success (resource name and trailing
engine ID) or the API failure. -/
def createWith (globals? : String → Option String) (importOk : Bool)
    (outcome : CreateOutcome) : List Event :=
  if importOk = false then
    [.err "Error: Could not import 'root_agent' from 'adk_short_bot.agent'.",
     .err "Ensure the agent package is in the correct path and installed in editable mode (pip install -e .)."]
  else
    [.out "Packaging agent...", .out "Deploying agent to Vertex AI..."] ++
    match globals? "AGENT_DISPLAY_NAME" with
    | none =>
        [.err "\nAn unexpected error occurred during deployment: name 'AGENT_DISPLAY_NAME' is not defined"]
    | some displayName =>
      match globals? "AGENT_DESCRIPTION" with
      | none =>
          [.err "\nAn unexpected error occurred during deployment: name 'AGENT_DESCRIPTION' is not defined"]
      | some description =>
        match globals? "AGENT_REQUIREMENTS" with
        | none =>
            [.err "\nAn unexpected error occurred during deployment: name 'AGENT_REQUIREMENTS' is not defined"]
        | some requirements =>
          match globals? "AGENT_PACKAGE_NAME" with
          | none =>
              [.err "\nAn unexpected error occurred during deployment: name 'AGENT_PACKAGE_NAME' is not defined"]
          | some packageName =>
            [.remoteCreate displayName description [requirements]
               ["./" ++ packageName]] ++
            match outcome with
            | .ok resourceName =>
                [.out ("\nSuccessfully created agent '" ++ displayName ++ "'"),
                 .out ("   Full Resource Name: " ++ resourceName),
                 .out ("   Engine ID: " ++ lastSegment resourceName)]
            | .apiError code msg =>
                [.err ("\nError deploying agent: API call failed with status " ++ code),
                 .err ("Details: " ++ msg)]
            | .unexpected msg =>
                [.err ("\nAn unexpected error occurred during deployment: " ++ msg)]

/-- `AgentManager.create` as written: `createWith` in the actual module
scope of `src/deployment/remote.py`. -/
def create (importOk : Bool) (outcome : CreateOutcome) : List Event :=
  createWith remoteModuleStrBindings importOk outcome

/-- The `raw_output` branch of `AgentManager.chat`
(`src/deployment/remote.py` lines 242-246): one
`print(json.dumps(chunk, indent=2))` per received chunk, in arrival
order, between the two banner lines. -/
def chatRawEvents (stream : List JVal) : List Event :=
  [.out "\n--- RAW AGENT STREAM ---"] ++
  stream.map (fun chunk => .out (dumps 2 0 chunk)) ++
  [.out "--- END RAW AGENT STREAM ---"]

/-- Joining a list of rendered pieces with a separator (the normal form in
which the serializer's per-entry output is stated). -/
def joinSep (sep : String) : List String → String
  | [] => ""
  | [x] => x
  | x :: y :: t => x ++ sep ++ joinSep sep (y :: t)

/-- The rendering of one object entry at 4-space indentation, as
`format_as_json` emits it. -/
def entry4 (kv : String × JVal) : String :=
  pad 4 ++ quoteStr kv.1 ++ ": " ++ dumps 4 4 kv.2

/-! ### Helper lemmas -/

theorem dumpsObj_eq_joinSep (step ind : Nat) (kvs : List (String × JVal)) :
    dumpsObj step ind kvs =
      joinSep ",\n"
        (kvs.map fun kv => pad ind ++ quoteStr kv.1 ++ ": " ++ dumps step ind kv.2) := by
  induction kvs with
  | nil => rfl
  | cons kv rest ih =>
    cases rest with
    | nil => rfl
    | cons kv2 t =>
      show pad ind ++ quoteStr kv.1 ++ ": " ++ dumps step ind kv.2 ++ ",\n" ++
          dumpsObj step ind (kv2 :: t) = _
      rw [ih]
      rfl

theorem containsSub_append_left (n t : List Char) :
    containsSub n (n ++ t) = true := by
  have hp : n.isPrefixOf (n ++ t) = true := by
    simp [List.isPrefixOf_iff_prefix]
  cases h : n ++ t with
  | nil =>
    have hn : n = [] := List.eq_nil_of_prefix_nil (h ▸ List.prefix_append n t)
    rw [hn]
    rfl
  | cons c rest =>
    rw [h] at hp
    simp [containsSub, hp]

theorem pySplitAux_length (sep : Char) (l : List Char) (acc : List Char) :
    (pySplitAux sep l acc).length = l.count sep + 1 := by
  induction l generalizing acc with
  | nil => simp [pySplitAux]
  | cons c rest ih =>
    by_cases h : c = sep
    · subst h
      simp [pySplitAux, ih, List.count_cons]
    · simp [pySplitAux, h, ih, List.count_cons]

/-! ### Claim theorems -/

/-- C4: `format_as_json` is deterministic — it is a pure function of the
keyword-argument mapping, so two calls on the same mapping produce the
identical output string. -/
theorem format_as_json_deterministic (kwargs : List (String × JVal)) :
    format_as_json kwargs = format_as_json kwargs :=
  rfl

/-- C5: for every mapping (with distinct keyword names, as Python keyword
arguments guarantee), `format_as_json`'s output consists of one serialized
entry per key, in the caller's order, each indented by exactly four
spaces, and every key occurs exactly once — none dropped. -/
theorem format_as_json_keys (kvs : List (String × JVal))
    (hnd : (kvs.map Prod.fst).Nodup) :
    format_as_json kvs =
      (if kvs.isEmpty then "\x7b\x7d"
        else "\x7b\n" ++ joinSep ",\n" (kvs.map entry4) ++ "\n\x7d") ∧
    ∀ k ∈ kvs.map Prod.fst, (kvs.map Prod.fst).count k = 1 := by
  constructor
  · cases kvs with
    | nil => rfl
    | cons kv rest =>
      show dumps 4 0 (.obj (kv :: rest)) = _
      rw [show dumps 4 0 (.obj (kv :: rest)) =
            "\x7b\n" ++ dumpsObj 4 4 (kv :: rest) ++ "\n" ++ pad 0 ++ "\x7d" from rfl,
          dumpsObj_eq_joinSep,
          show (fun kv : String × JVal =>
              pad 4 ++ quoteStr kv.1 ++ ": " ++ dumps 4 4 kv.2) = entry4 from rfl]
      simp [pad, List.isEmpty, String.ext_iff, String.data_append]
  · intro k hk
    exact List.count_eq_one_of_mem hnd hk

/-- C5 witness: the theorem applied to the intended three-field envelope. -/
theorem format_as_json_keys_witness :
    format_as_json
        [("original_character_count", .int 72),
         ("new_character_count", .int 30),
         ("new_message", .str "Long message needing big cuts")] =
      "\x7b\n    \"original_character_count\": 72,\n    \"new_character_count\": 30,\n    \"new_message\": \"Long message needing big cuts\"\n\x7d" := by
  have h :=
    (format_as_json_keys
      [("original_character_count", .int 72),
       ("new_character_count", .int 30),
       ("new_message", .str "Long message needing big cuts")]
      (by decide)).1
  rw [h]
  decide

/-- C6: `count_characters` returns the literal length of its input — a
non-negative integer, `0` on the empty string — and, being a pure
function, has no side effects. -/
theorem count_characters_spec (s : String) :
    count_characters s = s.length ∧ count_characters "" = 0 :=
  ⟨rfl, rfl⟩

/-- C8: with `AGENT_REQUIREMENTS` unset, the default string is split on
its comma — also the one inside the bracketed extras — into
`"google-cloud-aiplatform[adk"` and `"agent_engines]"`; in general the
parser yields one piece per comma plus one, i.e. it splits on every
comma. -/
theorem parseRequirements_spec :
    parseRequirements defaultRequirementsStr =
      ["google-cloud-aiplatform[adk", "agent_engines]"] ∧
    ∀ s : String, (parseRequirements s).length = s.data.count ',' + 1 := by
  refine ⟨by decide, fun s => ?_⟩
  simp [parseRequirements, pySplit, pySplitAux_length]

/-- C7: in `raw_output` mode `chat` emits, between the two banner lines,
exactly one serialized record per received stream chunk — the trace has
one entry per chunk — and the record at position `i + 1` is the
`indent=2` serialization of chunk `i`, so chunks are reported in arrival
order with no merging. -/
theorem chat_raw_one_record_per_chunk (stream : List JVal) :
    (chatRawEvents stream).length = stream.length + 2 ∧
    ∀ i, (h : i < stream.length) →
      (chatRawEvents stream)[i + 1]? =
        some (.out (dumps 2 0 (stream.get ⟨i, h⟩))) := by
  constructor
  · simp [chatRawEvents]
  · intro i h
    show ((Event.out "\n--- RAW AGENT STREAM ---") ::
        (stream.map (fun chunk => .out (dumps 2 0 chunk)) ++
          [Event.out "--- END RAW AGENT STREAM ---"]))[i + 1]? = _
    rw [List.getElem?_cons_succ, List.getElem?_append_left (by simpa using h),
        List.getElem?_map, List.getElem?_eq_getElem h]
    simp [List.get_eq_getElem]

/-- C7 witness: the theorem applied to a concrete two-chunk stream. -/
theorem chat_raw_one_record_per_chunk_witness :
    (chatRawEvents [JVal.null, JVal.int 3]).length = 2 + 2 ∧
    (chatRawEvents [JVal.null, JVal.int 3])[2]? = some (.out "3") := by
  refine ⟨(chat_raw_one_record_per_chunk [JVal.null, JVal.int 3]).1, ?_⟩
  have h := (chat_raw_one_record_per_chunk [JVal.null, JVal.int 3]).2 1 (by decide)
  simpa using h

/-- C9: `_get_full_resource_name` is idempotent — its output always
contains `"projects/"`, so a second application returns it unchanged —
and any input that already contains `"projects/"` is returned as-is. -/
theorem getFullResourceName_idempotent (pid loc e : String) :
    getFullResourceName pid loc (getFullResourceName pid loc e) =
      getFullResourceName pid loc e ∧
    ∀ s : String, containsSub "projects/".data s.data = true →
      getFullResourceName pid loc s = s := by
  have hfix : ∀ s : String, containsSub "projects/".data s.data = true →
      getFullResourceName pid loc s = s := by
    intro s hs
    simp [getFullResourceName, hs]
  refine ⟨?_, hfix⟩
  by_cases h : containsSub "projects/".data e.data = true
  · rw [hfix e h]
    exact hfix e h
  · have h' : containsSub "projects/".data e.data = false :=
      Bool.eq_false_iff.mpr h
    apply hfix
    rw [show getFullResourceName pid loc e =
          "projects/" ++ pid ++ "/locations/" ++ loc ++
            "/reasoningEngines/" ++ e by simp [getFullResourceName, h']]
    have hc := containsSub_append_left "projects/".data
        (pid ++ "/locations/" ++ loc ++ "/reasoningEngines/" ++ e).data
    simpa [String.data_append, List.append_assoc] using hc

/-- C9 witness: the theorem applied to a short ID and to an already
fully-qualified name. -/
theorem getFullResourceName_idempotent_witness :
    getFullResourceName "my-proj" "us-central1"
        (getFullResourceName "my-proj" "us-central1" "12345") =
      getFullResourceName "my-proj" "us-central1" "12345" ∧
    getFullResourceName "my-proj" "us-central1"
        "projects/x/locations/y/reasoningEngines/z" =
      "projects/x/locations/y/reasoningEngines/z" :=
  ⟨(getFullResourceName_idempotent "my-proj" "us-central1" "12345").1,
   (getFullResourceName_idempotent "my-proj" "us-central1" "12345").2
     "projects/x/locations/y/reasoningEngines/z" (by decide)⟩

/-- C10: `delete` on an empty (falsy) `engine_id` prints only the
"engine_id is required" error and returns — the trace holds no remote
call, so no deletion is attempted. -/
theorem delete_empty_engine_id (cfg : Config) (argv : List String)
    (force : Bool) (outcome : DeleteOutcome) :
    delete cfg argv "" force outcome = [.err "Error: engine_id is required."] ∧
    (delete cfg argv "" force outcome).all (fun ev => !ev.isRemote) = true :=
  ⟨rfl, rfl⟩

/-- C3: `delete` without the force flag, when the platform answers
`FailedPrecondition`, reports the dependent-resources case on stderr and
prints a corrected command line — the original argv with any `--force`
argument removed and ` --force=True` appended — rather than failing
silently or proceeding. -/
theorem delete_failedPrecondition_reports (cfg : Config) (argv : List String)
    (e : String) (h : ¬ e = "") :
    delete cfg argv e false .failedPrecondition =
      [.out ("Deleting agent: " ++
         getFullResourceName cfg.project_id cfg.location e ++ "..."),
       .remoteDelete (getFullResourceName cfg.project_id cfg.location e) false,
       .err ("\nError: Agent '" ++ e ++
         "' cannot be deleted because it has existing sessions or other child resources."),
       .err "To proceed, you must delete the agent and all its resources by using the --force flag.",
       .err "\nExample command:",
       .err ("   " ++ suggestedForceCommand argv)] ∧
    ∃ pre, suggestedForceCommand argv = pre ++ " --force=True" := by
  refine ⟨?_, ⟨_, rfl⟩⟩
  simp [delete, h]

/-- C3 witness: the theorem applied to a concrete invocation; the
suggested command line carries the force flag. -/
theorem delete_failedPrecondition_reports_witness :
    Event.err "   remote.py delete 42 --force=True" ∈
      delete ⟨"p", "l", "b", "pkg", "name", "", []⟩
        ["remote.py", "delete", "42"] "42" false .failedPrecondition := by
  rw [(delete_failedPrecondition_reports ⟨"p", "l", "b", "pkg", "name", "", []⟩
        ["remote.py", "delete", "42"] "42" (by decide)).1]
  decide

/-- C2: when any required configuration variable is missing (unset or
empty), `__init__` exits with status 1 after printing only the
missing-variables message to stderr; the single event in the trace is not
a remote call, so no network operation precedes the check. -/
theorem managerInit_missing_exits (env : Env) (vertexInitFails : Bool)
    (h : missingVars env ≠ []) :
    managerInit env vertexInitFails =
      .exited 1
        [.err ("Error: Missing required environment variables: " ++
           String.intercalate ", " (missingVars env))] ∧
    ([Event.err ("Error: Missing required environment variables: " ++
        String.intercalate ", " (missingVars env))].all
      fun ev => !ev.isRemote) = true := by
  refine ⟨?_, rfl⟩
  simp [managerInit, h]

set_option maxRecDepth 4096 in
/-- C2 witness: the theorem applied to the empty environment, in which
all five required variables are missing. -/
theorem managerInit_missing_exits_witness :
    managerInit (fun _ => none) false =
      .exited 1
        [.err "Error: Missing required environment variables: GOOGLE_CLOUD_PROJECT, GOOGLE_CLOUD_LOCATION, GOOGLE_CLOUD_STAGING_BUCKET, AGENT_PACKAGE_NAME, AGENT_DISPLAY_NAME"] := by
  rw [(managerInit_missing_exits (fun _ => none) false (by decide)).1]
  decide

/-- C1: `AgentManager.create` never submits anything. Its
`agent_engines.create` call names the module-level constants
`AGENT_DISPLAY_NAME`, `AGENT_DESCRIPTION`, `AGENT_REQUIREMENTS` and
`AGENT_PACKAGE_NAME`, none of which is bound in `remote.py`'s module
scope (the configured values live on `self`), so evaluating the first
argument raises `NameError`, the catch-all handler prints the "unexpected
error" message, and the trace holds no remote call. -/
theorem create_raises_nameError (outcome : CreateOutcome) :
    create true outcome =
      [.out "Packaging agent...", .out "Deploying agent to Vertex AI...",
       .err "\nAn unexpected error occurred during deployment: name 'AGENT_DISPLAY_NAME' is not defined"] ∧
    (create true outcome).all (fun ev => !ev.isRemote) = true :=
  ⟨rfl, rfl⟩

end AdkAgentManager
